import Mathlib

/-!
Shallow embedding of the ALU emulator (src/cpu.hpp, src/alu.hpp).

Machine integers are modelled as `Nat` with explicit truncation:
`std::uint8_t` values are naturals below 256, the widened accumulator
`std::uint16_t` is a natural below 65536.  The conversion of a signed
`int` expression to `uint16_t` (as in `result = a - b`) is modelled by
computing in `Int` and reducing modulo 2^16.
-/

namespace cpu

/-- OP code `NOP = 0x00` (cpu.hpp). -/
def NOP : Nat := 0x00
/-- OP code `OR = 0x01` (cpu.hpp). -/
def OR : Nat := 0x01
/-- OP code `AND = 0x02` (cpu.hpp). -/
def AND : Nat := 0x02
/-- OP code `XOR = 0x03` (cpu.hpp). -/
def XOR : Nat := 0x03
/-- OP code `ADD = 0x04` (cpu.hpp). -/
def ADD : Nat := 0x04
/-- OP code `SUB = 0x05` (cpu.hpp). -/
def SUB : Nat := 0x05

/-- Status-flag bit position `S = 4` (cpu.hpp). -/
def S : Nat := 4
/-- Status-flag bit position `N = 3` (cpu.hpp). -/
def N : Nat := 3
/-- Status-flag bit position `Z = 2` (cpu.hpp). -/
def Z : Nat := 2
/-- Status-flag bit position `V = 1` (cpu.hpp). -/
def V : Nat := 1
/-- Status-flag bit position `C = 0` (cpu.hpp). -/
def C : Nat := 0

/-- `set(reg, bit)`: `reg |= (1 << bit)` (cpu.hpp). -/
def set (reg bit : Nat) : Nat := reg ||| (1 <<< bit)

/-- `read(reg, bit)`: `reg & (1 << bit)` (cpu.hpp). -/
def read (reg bit : Nat) : Nat := reg &&& (1 <<< bit)

/-- `get_signed(num, sr)` (cpu.hpp): signed rendering steered by the S flag. -/
def get_signed (num sr : Nat) : Int :=
  if read sr S ≠ 0 then (num : Int) - 256 else (num : Int)

/-- One-argument `get_signed(num)` (cpu.hpp): bit 7 alone decides the sign. -/
def get_signed7 (num : Nat) : Int :=
  if read num 7 ≠ 0 then (num : Int) - 256 else (num : Int)

end cpu

namespace alu

open cpu

/-- Truncation of a signed `int` value to `std::uint16_t`. -/
def toUInt16 (x : Int) : Nat := (x % 65536).toNat

/-- The `SUB` case of the `switch` (alu.hpp, lines 105-109): `result = a - b`
on the widened `uint16_t` accumulator, then `if (a < b) result += 256`,
again wrapping at 2^16. -/
def subAcc (a b : Nat) : Nat :=
  let r0 := toUInt16 ((a : Int) - (b : Int))
  if a < b then (r0 + 256) % 65536 else r0

/-- The `switch (operation)` body of `alu::calculate` (alu.hpp, lines 77-118).
Takes the operands and the status register with the five flag bits already
cleared; yields the widened `std::uint16_t` accumulator together with the
status register after the per-operation `V` update.  Any OP code other
than `OR`, `AND`, `XOR`, `ADD`, `SUB` falls through, leaving the zero
accumulator. -/
def opSwitch (operation a b sr1 : Nat) : Nat × Nat :=
  if operation = OR then (a ||| b, sr1)
  else if operation = AND then (a &&& b, sr1)
  else if operation = XOR then (a ^^^ b, sr1)
  else if operation = ADD then
    (a + b,
     if read a 7 = read b 7 ∧ read a 7 ≠ read (a + b) 7 then set sr1 V else sr1)
  else if operation = SUB then
    (subAcc a b,
     if read a 7 ≠ read b 7 ∧ read b 7 = read (subAcc a b) 7 then set sr1 V else sr1)
  else (0, sr1)

/-- The common tail of `alu::calculate` (alu.hpp, lines 120-125): update the
`C`, `Z`, `N`, `S` flags from the widened accumulator and truncate it to
8 bits. -/
def updateFlags (rs : Nat × Nat) : Nat × Nat :=
  let result := rs.1
  let sr3 := rs.2
  let sr4 := if read result 8 ≠ 0 then set sr3 C else sr3
  let sr5 := if result = 0 then set sr4 Z else sr4
  let sr6 := if read result 7 ≠ 0 then set sr5 N else sr5
  let sr7 := if (read sr6 N != 0) != (read sr6 V != 0) then set sr6 S else sr6
  (result % 256, sr7)

/-- `alu::calculate(operation, a, b, sr)` (alu.hpp, lines 69-126).
Returns the byte result together with the updated status register.
The entry `sr &= ~((1<<S)|(1<<N)|(1<<Z)|(1<<V)|(1<<C))` on the 8-bit
register is `sr &&& 224`. -/
def calculate (operation a b sr : Nat) : Nat × Nat :=
  updateFlags (opSwitch operation a b (sr &&& 224))

/-- Widened accumulator produced by the `switch` for given operands. -/
def acc (operation a b : Nat) : Nat := (opSwitch operation a b 0).1

/-- Whether the `switch` sets the `V` flag for given operands. -/
def vbit (operation a b : Nat) : Bool := ((opSwitch operation a b 0).2).testBit 1

end alu

namespace alu

open cpu

lemma read_spec (x i : Nat) : read x i = if x.testBit i then 2 ^ i else 0 := by
  unfold cpu.read
  rw [Nat.shiftLeft_eq, one_mul]
  by_cases hx : x.testBit i
  · rw [if_pos hx]
    apply Nat.eq_of_testBit_eq
    intro j
    rw [Nat.testBit_and, Nat.testBit_two_pow]
    by_cases hj : i = j
    · subst hj; simp [hx, Nat.testBit_two_pow]
    · simp [hj, Nat.testBit_two_pow]
  · rw [if_neg hx]
    apply Nat.eq_of_testBit_eq
    intro j
    rw [Nat.testBit_and, Nat.testBit_two_pow]
    by_cases hj : i = j
    · subst hj; simp [hx, Nat.zero_testBit]
    · simp [hj, Nat.zero_testBit]

lemma read_ne_zero (x i : Nat) : read x i ≠ 0 ↔ x.testBit i = true := by
  rw [read_spec]
  by_cases hx : x.testBit i <;> simp [hx, (pow_pos (by norm_num : (0:ℕ) < 2) i).ne']

lemma read_eq_zero (x i : Nat) : read x i = 0 ↔ x.testBit i = false := by
  rw [read_spec]
  by_cases hx : x.testBit i <;> simp [hx, (pow_pos (by norm_num : (0:ℕ) < 2) i).ne']

lemma read_bne (x i : Nat) : (read x i != 0) = x.testBit i := by
  rw [read_spec]
  by_cases hx : x.testBit i <;>
    simp [hx, bne_iff_ne, (pow_pos (by norm_num : (0:ℕ) < 2) i).ne']

lemma read_eq_read (x y i : Nat) : read x i = read y i ↔ x.testBit i = y.testBit i := by
  have h2 := (pow_pos (by norm_num : (0:ℕ) < 2) i).ne'
  rw [read_spec, read_spec]
  by_cases hx : x.testBit i <;> by_cases hy : y.testBit i <;>
    simp [hx, hy, h2, Ne.symm h2]

lemma testBit_set (x b j : Nat) : (set x b).testBit j = (x.testBit j || decide (b = j)) := by
  unfold cpu.set
  rw [Nat.testBit_or, Nat.shiftLeft_eq, one_mul, Nat.testBit_two_pow]

lemma updateFlags_high (r s : Nat) : ∀ j, 5 ≤ j →
    ((updateFlags (r, s)).2).testBit j = s.testBit j := by
  intro j hj
  have d0 : decide (0 = j) = false := by simp; omega
  have d1 : decide (1 = j) = false := by simp; omega
  have d2 : decide (2 = j) = false := by simp; omega
  have d3 : decide (3 = j) = false := by simp; omega
  have d4 : decide (4 = j) = false := by simp; omega
  simp only [updateFlags]
  split <;> split <;> split <;> split <;>
    simp [testBit_set, cpu.C, cpu.Z, cpu.N, cpu.S, cpu.V, d0, d1, d2, d3, d4]

lemma updateFlags_char (r s : Nat)
    (h0 : s.testBit 0 = false) (h2 : s.testBit 2 = false)
    (h3 : s.testBit 3 = false) (h4 : s.testBit 4 = false) :
    (updateFlags (r, s)).1 = r % 256 ∧
    ((updateFlags (r, s)).2).testBit 0 = r.testBit 8 ∧
    ((updateFlags (r, s)).2).testBit 1 = s.testBit 1 ∧
    ((updateFlags (r, s)).2).testBit 2 = decide (r = 0) ∧
    ((updateFlags (r, s)).2).testBit 3 = r.testBit 7 ∧
    ((updateFlags (r, s)).2).testBit 4 = (r.testBit 7 != s.testBit 1) := by
  simp only [updateFlags, read_ne_zero, read_bne, cpu.C, cpu.Z, cpu.N, cpu.S, cpu.V]
  by_cases hc : r.testBit 8 <;> by_cases hz : r = 0 <;> by_cases hn : r.testBit 7 <;>
    by_cases hv : s.testBit 1 <;>
    simp_all [testBit_set, Nat.zero_testBit, -Nat.testBit_zero]

lemma testBit_set_ne (x b j : Nat) (h : b ≠ j) : (set x b).testBit j = x.testBit j := by
  simp [testBit_set, h]

lemma bne_false (x : Bool) : (x != false) = x := by
  cases x <;> rfl

lemma t224_low : ∀ i, i < 5 → Nat.testBit 224 i = false := by decide

lemma mask224_low (sr : Nat) : ∀ i, i < 5 → (sr &&& 224).testBit i = false := by
  intro i hi
  rw [Nat.testBit_and, t224_low i hi, Bool.and_false]

lemma op_cases (op : Nat) :
    op = cpu.OR ∨ op = cpu.AND ∨ op = cpu.XOR ∨ op = cpu.ADD ∨ op = cpu.SUB ∨
      (op ≠ cpu.OR ∧ op ≠ cpu.AND ∧ op ≠ cpu.XOR ∧ op ≠ cpu.ADD ∧ op ≠ cpu.SUB) := by
  simp only [cpu.OR, cpu.AND, cpu.XOR, cpu.ADD, cpu.SUB]
  omega

lemma opSwitch_OR_eq (a b x : Nat) : opSwitch cpu.OR a b x = (a ||| b, x) := rfl

lemma opSwitch_AND_eq (a b x : Nat) : opSwitch cpu.AND a b x = (a &&& b, x) := rfl

lemma opSwitch_XOR_eq (a b x : Nat) : opSwitch cpu.XOR a b x = (a ^^^ b, x) := rfl

lemma opSwitch_ADD_eq (a b x : Nat) : opSwitch cpu.ADD a b x =
    (a + b,
     if read a 7 = read b 7 ∧ read a 7 ≠ read (a + b) 7 then set x cpu.V else x) := rfl

lemma opSwitch_SUB_eq (a b x : Nat) : opSwitch cpu.SUB a b x =
    (subAcc a b,
     if read a 7 ≠ read b 7 ∧ read b 7 = read (subAcc a b) 7 then set x cpu.V else x) := rfl

lemma opSwitch_default_eq (op a b x : Nat) (h1 : op ≠ cpu.OR) (h2 : op ≠ cpu.AND)
    (h3 : op ≠ cpu.XOR) (h4 : op ≠ cpu.ADD) (h5 : op ≠ cpu.SUB) :
    opSwitch op a b x = (0, x) := by
  unfold opSwitch
  rw [if_neg h1, if_neg h2, if_neg h3, if_neg h4, if_neg h5]

lemma acc_OR (a b : Nat) : acc cpu.OR a b = a ||| b := rfl

lemma acc_AND (a b : Nat) : acc cpu.AND a b = a &&& b := rfl

lemma acc_XOR (a b : Nat) : acc cpu.XOR a b = a ^^^ b := rfl

lemma acc_ADD (a b : Nat) : acc cpu.ADD a b = a + b := rfl

lemma acc_SUB (a b : Nat) : acc cpu.SUB a b = subAcc a b := rfl

lemma acc_default (op a b : Nat) (h1 : op ≠ cpu.OR) (h2 : op ≠ cpu.AND)
    (h3 : op ≠ cpu.XOR) (h4 : op ≠ cpu.ADD) (h5 : op ≠ cpu.SUB) :
    acc op a b = 0 := by
  unfold acc
  rw [opSwitch_default_eq op a b 0 h1 h2 h3 h4 h5]

lemma vbit_OR (a b : Nat) : vbit cpu.OR a b = false := by
  unfold vbit
  rw [opSwitch_OR_eq]
  exact Nat.zero_testBit 1

lemma vbit_AND (a b : Nat) : vbit cpu.AND a b = false := by
  unfold vbit
  rw [opSwitch_AND_eq]
  exact Nat.zero_testBit 1

lemma vbit_XOR (a b : Nat) : vbit cpu.XOR a b = false := by
  unfold vbit
  rw [opSwitch_XOR_eq]
  exact Nat.zero_testBit 1

lemma vbit_ADD (a b : Nat) : vbit cpu.ADD a b =
    decide (read a 7 = read b 7 ∧ read a 7 ≠ read (a + b) 7) := by
  unfold vbit
  rw [opSwitch_ADD_eq]
  by_cases h : read a 7 = read b 7 ∧ read a 7 ≠ read (a + b) 7
  · rw [if_pos h, decide_eq_true h]
    simp [testBit_set, cpu.V, Nat.zero_testBit]
  · rw [if_neg h, decide_eq_false h]
    exact Nat.zero_testBit 1

lemma vbit_SUB (a b : Nat) : vbit cpu.SUB a b =
    decide (read a 7 ≠ read b 7 ∧ read b 7 = read (subAcc a b) 7) := by
  unfold vbit
  rw [opSwitch_SUB_eq]
  by_cases h : read a 7 ≠ read b 7 ∧ read b 7 = read (subAcc a b) 7
  · rw [if_pos h, decide_eq_true h]
    simp [testBit_set, cpu.V, Nat.zero_testBit]
  · rw [if_neg h, decide_eq_false h]
    exact Nat.zero_testBit 1

lemma vbit_default (op a b : Nat) (h1 : op ≠ cpu.OR) (h2 : op ≠ cpu.AND)
    (h3 : op ≠ cpu.XOR) (h4 : op ≠ cpu.ADD) (h5 : op ≠ cpu.SUB) :
    vbit op a b = false := by
  unfold vbit
  rw [opSwitch_default_eq op a b 0 h1 h2 h3 h4 h5]
  exact Nat.zero_testBit 1

lemma bits_of_updateFlags (r s m : Nat) (vb : Bool)
    (h0 : s.testBit 0 = false) (h2 : s.testBit 2 = false)
    (h3 : s.testBit 3 = false) (h4 : s.testBit 4 = false)
    (h1 : s.testBit 1 = vb)
    (hh : ∀ j, 5 ≤ j → s.testBit j = m.testBit j) :
    (updateFlags (r, s)).1 = r % 256 ∧
    ((updateFlags (r, s)).2).testBit 0 = r.testBit 8 ∧
    ((updateFlags (r, s)).2).testBit 1 = vb ∧
    ((updateFlags (r, s)).2).testBit 2 = decide (r = 0) ∧
    ((updateFlags (r, s)).2).testBit 3 = r.testBit 7 ∧
    ((updateFlags (r, s)).2).testBit 4 = (r.testBit 7 != vb) ∧
    ∀ j, 5 ≤ j → ((updateFlags (r, s)).2).testBit j = m.testBit j := by
  obtain ⟨e1, e2, e3, e4, e5, e6⟩ := updateFlags_char r s h0 h2 h3 h4
  refine ⟨e1, e2, ?_, e4, e5, ?_, ?_⟩
  · rw [e3, h1]
  · rw [e6, h1]
  · intro j hj
    rw [updateFlags_high r s j hj, hh j hj]

/-- Master characterization of `alu::calculate`: the byte result is the
widened accumulator truncated to 8 bits, and each of the five flag bits of
the resulting status register is determined by the accumulator and the
per-operation overflow condition, while bits 5 and above are those of
`sr &&& 224`. -/
theorem calculate_bits (op a b sr : Nat) :
    (calculate op a b sr).1 = acc op a b % 256 ∧
    ((calculate op a b sr).2).testBit 0 = (acc op a b).testBit 8 ∧
    ((calculate op a b sr).2).testBit 1 = vbit op a b ∧
    ((calculate op a b sr).2).testBit 2 = decide (acc op a b = 0) ∧
    ((calculate op a b sr).2).testBit 3 = (acc op a b).testBit 7 ∧
    ((calculate op a b sr).2).testBit 4 = ((acc op a b).testBit 7 != vbit op a b) ∧
    ∀ j, 5 ≤ j → ((calculate op a b sr).2).testBit j = (sr &&& 224).testBit j := by
  have m0 := mask224_low sr 0 (by norm_num)
  have m1 := mask224_low sr 1 (by norm_num)
  have m2 := mask224_low sr 2 (by norm_num)
  have m3 := mask224_low sr 3 (by norm_num)
  have m4 := mask224_low sr 4 (by norm_num)
  have hv0 : (cpu.V ≠ 0) := by norm_num [cpu.V]
  have hv2 : (cpu.V ≠ 2) := by norm_num [cpu.V]
  have hv3 : (cpu.V ≠ 3) := by norm_num [cpu.V]
  have hv4 : (cpu.V ≠ 4) := by norm_num [cpu.V]
  unfold calculate
  rcases op_cases op with h | h | h | h | h | ⟨h1, h2, h3, h4, h5⟩
  · subst h
    rw [opSwitch_OR_eq, acc_OR, vbit_OR]
    exact bits_of_updateFlags _ _ _ false m0 m2 m3 m4 m1 (fun j hj => rfl)
  · subst h
    rw [opSwitch_AND_eq, acc_AND, vbit_AND]
    exact bits_of_updateFlags _ _ _ false m0 m2 m3 m4 m1 (fun j hj => rfl)
  · subst h
    rw [opSwitch_XOR_eq, acc_XOR, vbit_XOR]
    exact bits_of_updateFlags _ _ _ false m0 m2 m3 m4 m1 (fun j hj => rfl)
  · subst h
    rw [opSwitch_ADD_eq, acc_ADD, vbit_ADD]
    by_cases hc : read a 7 = read b 7 ∧ read a 7 ≠ read (a + b) 7
    · rw [if_pos hc, decide_eq_true hc]
      refine bits_of_updateFlags _ _ _ true ?_ ?_ ?_ ?_ ?_ ?_
      · rw [testBit_set_ne _ _ _ hv0]; exact m0
      · rw [testBit_set_ne _ _ _ hv2]; exact m2
      · rw [testBit_set_ne _ _ _ hv3]; exact m3
      · rw [testBit_set_ne _ _ _ hv4]; exact m4
      · rw [testBit_set, m1]; simp [cpu.V]
      · intro j hj
        exact testBit_set_ne _ _ _ (by simp only [cpu.V]; omega)
    · rw [if_neg hc, decide_eq_false hc]
      exact bits_of_updateFlags _ _ _ false m0 m2 m3 m4 m1 (fun j hj => rfl)
  · subst h
    rw [opSwitch_SUB_eq, acc_SUB, vbit_SUB]
    by_cases hc : read a 7 ≠ read b 7 ∧ read b 7 = read (subAcc a b) 7
    · rw [if_pos hc, decide_eq_true hc]
      refine bits_of_updateFlags _ _ _ true ?_ ?_ ?_ ?_ ?_ ?_
      · rw [testBit_set_ne _ _ _ hv0]; exact m0
      · rw [testBit_set_ne _ _ _ hv2]; exact m2
      · rw [testBit_set_ne _ _ _ hv3]; exact m3
      · rw [testBit_set_ne _ _ _ hv4]; exact m4
      · rw [testBit_set, m1]; simp [cpu.V]
      · intro j hj
        exact testBit_set_ne _ _ _ (by simp only [cpu.V]; omega)
    · rw [if_neg hc, decide_eq_false hc]
      exact bits_of_updateFlags _ _ _ false m0 m2 m3 m4 m1 (fun j hj => rfl)
  · rw [opSwitch_default_eq op a b _ h1 h2 h3 h4 h5, acc_default op a b h1 h2 h3 h4 h5,
      vbit_default op a b h1 h2 h3 h4 h5]
    exact bits_of_updateFlags _ _ _ false m0 m2 m3 m4 m1 (fun j hj => rfl)

lemma subAcc_eq (a b : Nat) (ha : a < 256) (hb : b < 256) :
    subAcc a b = (a + 256 - b) % 256 := by
  simp only [subAcc, toUInt16]
  split <;> omega

lemma subAcc_lt (a b : Nat) (ha : a < 256) (hb : b < 256) : subAcc a b < 256 := by
  rw [subAcc_eq a b ha hb]
  exact Nat.mod_lt _ (by norm_num)

lemma testBit_of_lt_256 (x : Nat) (h : x < 256) : x.testBit 8 = false := by
  have h2 : (2:Nat) ^ 8 = 256 := by norm_num
  exact Nat.testBit_lt_two_pow (by rw [h2]; exact h)

lemma testBit8_iff (x : Nat) (h : x < 512) : x.testBit 8 = true ↔ 256 ≤ x := by
  rw [Nat.testBit_to_div_mod, decide_eq_true_eq]
  have h2 : (2:Nat) ^ 8 = 256 := by norm_num
  rw [h2]
  omega

lemma testBit7_mod (x : Nat) : (x % 256).testBit 7 = x.testBit 7 := by
  have h2 : (256:Nat) = 2 ^ 8 := by norm_num
  rw [h2, Nat.testBit_mod_two_pow]
  simp

lemma read7_mod (x : Nat) : read (x % 256) 7 = read x 7 := by
  rw [read_spec, read_spec, testBit7_mod]

lemma or_lt_256 (a b : Nat) (ha : a < 256) (hb : b < 256) : a ||| b < 256 := by
  have h2 : (2:Nat) ^ 8 = 256 := by norm_num
  have h := Nat.or_lt_two_pow (n := 8) (by rw [h2]; exact ha) (by rw [h2]; exact hb)
  rw [h2] at h
  exact h

lemma and_lt_256 (a b : Nat) (ha : a < 256) : a &&& b < 256 :=
  Nat.lt_of_le_of_lt (Nat.and_le_left) ha

lemma xor_lt_256 (a b : Nat) (ha : a < 256) (hb : b < 256) : a ^^^ b < 256 := by
  have h2 : (2:Nat) ^ 8 = 256 := by norm_num
  have h := Nat.xor_lt_two_pow (n := 8) (by rw [h2]; exact ha) (by rw [h2]; exact hb)
  rw [h2] at h
  exact h

end alu

section claims
open cpu alu

/-- C1, counterexample: at `a = 0`, `b = 1` we have `a < b`, yet the Carry
flag is clear after `calculate(SUB, 0, 1, 0)` (the `result += 256`
adjustment wraps the borrow out of bit 8), so "Carry set iff `a < b`"
fails. -/
theorem C1_counterexample :
    ¬ (cpu.read (calculate cpu.SUB 0 1 0).2 cpu.C ≠ 0 ↔ (0:Nat) < 1) := by
  decide

/-- C1, amended: for all bytes `a`, `b` and any status register,
`calculate(SUB, a, b, sr)` returns `(a - b) mod 256`, and the Carry flag
(bit 0 of `sr`) is never set after SUB. -/
theorem C1_sub_result_carry (a b sr : Nat) (ha : a < 256) (hb : b < 256) :
    ((calculate cpu.SUB a b sr).1 : Int) = ((a : Int) - (b : Int)) % 256 ∧
    cpu.read (calculate cpu.SUB a b sr).2 cpu.C = 0 := by
  obtain ⟨r1, b0, -, -, -, -, -⟩ := calculate_bits cpu.SUB a b sr
  constructor
  · rw [r1, acc_SUB, subAcc_eq a b ha hb]
    omega
  · rw [read_eq_zero]
    show (calculate cpu.SUB a b sr).2.testBit 0 = false
    rw [b0, acc_SUB]
    exact testBit_of_lt_256 _ (subAcc_lt a b ha hb)

/-- C1 witness: the amended statement at `a = 3`, `b = 200`, `sr = 9`. -/
theorem C1_sub_result_carry_witness :
    (3:Nat) < 256 ∧ (200:Nat) < 256 ∧
    (((calculate cpu.SUB 3 200 9).1 : Int) = ((3 : Int) - (200 : Int)) % 256 ∧
     cpu.read (calculate cpu.SUB 3 200 9).2 cpu.C = 0) :=
  ⟨by decide, by decide, C1_sub_result_carry 3 200 9 (by decide) (by decide)⟩

/-- C2, counterexample: `calculate(ADD, 255, 1, 0)` returns result byte 0,
yet the Zero flag is clear, because the code tests the widened 16-bit
accumulator (here 256) rather than the truncated byte. -/
theorem C2_counterexample :
    ¬ (cpu.read (calculate cpu.ADD 255 1 0).2 cpu.Z ≠ 0 ↔
        (calculate cpu.ADD 255 1 0).1 = 0) := by
  decide

/-- C2, amended: for the five defined operations and all bytes, the Zero
flag is set iff the widened accumulator is zero, i.e. iff the returned
result byte is zero AND the Carry flag is clear (for ADD with
`a + b = 256` the byte is zero but Zero stays clear). -/
theorem C2_zero_flag (op a b sr : Nat)
    (hop : op = cpu.OR ∨ op = cpu.AND ∨ op = cpu.XOR ∨ op = cpu.ADD ∨ op = cpu.SUB)
    (ha : a < 256) (hb : b < 256) :
    cpu.read (calculate op a b sr).2 cpu.Z ≠ 0 ↔
      ((calculate op a b sr).1 = 0 ∧ cpu.read (calculate op a b sr).2 cpu.C = 0) := by
  obtain ⟨r1, b0, -, b2, -, -, -⟩ := calculate_bits op a b sr
  have hlt : acc op a b < 512 := by
    rcases hop with h | h | h | h | h <;> subst h
    · rw [acc_OR]; exact Nat.lt_trans (or_lt_256 a b ha hb) (by norm_num)
    · rw [acc_AND]; exact Nat.lt_trans (and_lt_256 a b ha) (by norm_num)
    · rw [acc_XOR]; exact Nat.lt_trans (xor_lt_256 a b ha hb) (by norm_num)
    · rw [acc_ADD]; omega
    · rw [acc_SUB]; exact Nat.lt_trans (subAcc_lt a b ha hb) (by norm_num)
  rw [read_ne_zero, read_eq_zero]
  show (calculate op a b sr).2.testBit 2 = true ↔
    _ = 0 ∧ (calculate op a b sr).2.testBit 0 = false
  rw [b2, b0, r1, decide_eq_true_eq, ← Bool.not_eq_true, testBit8_iff _ hlt]
  omega

/-- C2 witness: the amended statement for ADD at `a = 255`, `b = 1`,
`sr = 0`. -/
theorem C2_zero_flag_witness :
    (cpu.ADD = cpu.OR ∨ cpu.ADD = cpu.AND ∨ cpu.ADD = cpu.XOR ∨ cpu.ADD = cpu.ADD ∨
      cpu.ADD = cpu.SUB) ∧
    (255:Nat) < 256 ∧ (1:Nat) < 256 ∧
    (cpu.read (calculate cpu.ADD 255 1 0).2 cpu.Z ≠ 0 ↔
      ((calculate cpu.ADD 255 1 0).1 = 0 ∧
       cpu.read (calculate cpu.ADD 255 1 0).2 cpu.C = 0)) :=
  ⟨by decide, by decide, by decide,
   C2_zero_flag cpu.ADD 255 1 0 (by decide) (by decide) (by decide)⟩

/-- C3, counterexample: after `calculate(ADD, 100, 50, 0)` the Signed flag
is clear (N = 1, V = 1, so S = N xor V = 0), hence
`get_signed(result, sr)` returns 150, not `150 - 256 = -106`: the final
conjunct of the claim fails. -/
theorem C3_counterexample :
    ¬ ((calculate cpu.ADD 100 50 0).1 = 150 ∧
       get_signed (calculate cpu.ADD 100 50 0).1 (calculate cpu.ADD 100 50 0).2 =
         150 - 256) := by
  decide

/-- C3, amended: `calculate(ADD, 100, 50, sr)` returns 150 with Carry 0,
Overflow 1, Negative 1, Zero 0, Signed 0, and `get_signed(result, sr)`
renders 150 (not −106), since the Signed flag is clear. -/
theorem C3_add_100_50 (sr : Nat) :
    (calculate cpu.ADD 100 50 sr).1 = 150 ∧
    cpu.read (calculate cpu.ADD 100 50 sr).2 cpu.C = 0 ∧
    cpu.read (calculate cpu.ADD 100 50 sr).2 cpu.V ≠ 0 ∧
    cpu.read (calculate cpu.ADD 100 50 sr).2 cpu.N ≠ 0 ∧
    cpu.read (calculate cpu.ADD 100 50 sr).2 cpu.Z = 0 ∧
    cpu.read (calculate cpu.ADD 100 50 sr).2 cpu.S = 0 ∧
    get_signed (calculate cpu.ADD 100 50 sr).1 (calculate cpu.ADD 100 50 sr).2 = 150 := by
  obtain ⟨r1, b0, b1, b2, b3, b4, -⟩ := calculate_bits cpu.ADD 100 50 sr
  have hacc : acc cpu.ADD 100 50 = 150 := by decide
  have hvb : vbit cpu.ADD 100 50 = true := by decide
  have hres : (calculate cpu.ADD 100 50 sr).1 = 150 := by rw [r1, hacc]
  have hS : cpu.read (calculate cpu.ADD 100 50 sr).2 cpu.S = 0 := by
    rw [read_eq_zero]
    show (calculate cpu.ADD 100 50 sr).2.testBit 4 = false
    rw [b4, hacc, hvb]
    decide
  refine ⟨hres, ?_, ?_, ?_, ?_, hS, ?_⟩
  · rw [read_eq_zero]
    show (calculate cpu.ADD 100 50 sr).2.testBit 0 = false
    rw [b0, hacc]
    decide
  · rw [read_ne_zero]
    show (calculate cpu.ADD 100 50 sr).2.testBit 1 = true
    rw [b1, hvb]
  · rw [read_ne_zero]
    show (calculate cpu.ADD 100 50 sr).2.testBit 3 = true
    rw [b3, hacc]
    decide
  · rw [read_eq_zero]
    show (calculate cpu.ADD 100 50 sr).2.testBit 2 = false
    rw [b2, hacc]
    decide
  · unfold cpu.get_signed
    rw [if_neg (by rw [hS]; exact fun h => h rfl), hres]
    norm_num

/-- C4: for all bytes `a`, `b`, `calculate(ADD, a, b, sr)` returns
`(a + b) mod 256` and the Carry flag is set iff `a + b ≥ 256`. -/
theorem C4_add_result_carry (a b sr : Nat) (ha : a < 256) (hb : b < 256) :
    (calculate cpu.ADD a b sr).1 = (a + b) % 256 ∧
    (cpu.read (calculate cpu.ADD a b sr).2 cpu.C ≠ 0 ↔ 256 ≤ a + b) := by
  obtain ⟨r1, b0, -, -, -, -, -⟩ := calculate_bits cpu.ADD a b sr
  refine ⟨?_, ?_⟩
  · rw [r1, acc_ADD]
  · rw [read_ne_zero]
    show (calculate cpu.ADD a b sr).2.testBit 0 = true ↔ _
    rw [b0, acc_ADD]
    exact testBit8_iff _ (by omega)

/-- C4 witness: the statement at `a = 255`, `b = 1`, `sr = 0`. -/
theorem C4_add_result_carry_witness :
    (255:Nat) < 256 ∧ (1:Nat) < 256 ∧
    ((calculate cpu.ADD 255 1 0).1 = (255 + 1) % 256 ∧
     (cpu.read (calculate cpu.ADD 255 1 0).2 cpu.C ≠ 0 ↔ 256 ≤ 255 + 1)) :=
  ⟨by decide, by decide, C4_add_result_carry 255 1 0 (by decide) (by decide)⟩

/-- C5: the Overflow flag after `calculate`: for ADD it is set iff `a` and
`b` agree on bit 7 and the truncated result differs from them on bit 7;
for SUB iff `a` and `b` differ on bit 7 and the truncated result agrees
with `b` on bit 7; for OR, AND, XOR it is never set. -/
theorem C5_overflow_rules (a b sr : Nat) :
    (cpu.read (calculate cpu.ADD a b sr).2 cpu.V ≠ 0 ↔
      (cpu.read a 7 = cpu.read b 7 ∧
       cpu.read a 7 ≠ cpu.read ((calculate cpu.ADD a b sr).1) 7)) ∧
    (cpu.read (calculate cpu.SUB a b sr).2 cpu.V ≠ 0 ↔
      (cpu.read a 7 ≠ cpu.read b 7 ∧
       cpu.read b 7 = cpu.read ((calculate cpu.SUB a b sr).1) 7)) ∧
    cpu.read (calculate cpu.OR a b sr).2 cpu.V = 0 ∧
    cpu.read (calculate cpu.AND a b sr).2 cpu.V = 0 ∧
    cpu.read (calculate cpu.XOR a b sr).2 cpu.V = 0 := by
  obtain ⟨rA, -, vA, -, -, -, -⟩ := calculate_bits cpu.ADD a b sr
  obtain ⟨rS, -, vS, -, -, -, -⟩ := calculate_bits cpu.SUB a b sr
  obtain ⟨-, -, vO, -, -, -, -⟩ := calculate_bits cpu.OR a b sr
  obtain ⟨-, -, vN, -, -, -, -⟩ := calculate_bits cpu.AND a b sr
  obtain ⟨-, -, vX, -, -, -, -⟩ := calculate_bits cpu.XOR a b sr
  refine ⟨?_, ?_, ?_, ?_, ?_⟩
  · rw [read_ne_zero]
    show (calculate cpu.ADD a b sr).2.testBit 1 = true ↔ _
    rw [vA, vbit_ADD, decide_eq_true_eq, rA, acc_ADD, read7_mod]
  · rw [read_ne_zero]
    show (calculate cpu.SUB a b sr).2.testBit 1 = true ↔ _
    rw [vS, vbit_SUB, decide_eq_true_eq, rS, acc_SUB, read7_mod]
  · rw [read_eq_zero]
    show (calculate cpu.OR a b sr).2.testBit 1 = false
    rw [vO, vbit_OR]
  · rw [read_eq_zero]
    show (calculate cpu.AND a b sr).2.testBit 1 = false
    rw [vN, vbit_AND]
  · rw [read_eq_zero]
    show (calculate cpu.XOR a b sr).2.testBit 1 = false
    rw [vX, vbit_XOR]

/-- C6: for OR, AND, XOR on bytes, `calculate` returns exactly the bitwise
operation, Overflow and Carry end up clear, and the Signed flag equals the
Negative flag. -/
theorem C6_logical_ops (a b sr : Nat) (ha : a < 256) (hb : b < 256) :
    ((calculate cpu.OR a b sr).1 = (a ||| b) ∧
     cpu.read (calculate cpu.OR a b sr).2 cpu.V = 0 ∧
     cpu.read (calculate cpu.OR a b sr).2 cpu.C = 0 ∧
     (cpu.read (calculate cpu.OR a b sr).2 cpu.S ≠ 0 ↔
      cpu.read (calculate cpu.OR a b sr).2 cpu.N ≠ 0)) ∧
    ((calculate cpu.AND a b sr).1 = (a &&& b) ∧
     cpu.read (calculate cpu.AND a b sr).2 cpu.V = 0 ∧
     cpu.read (calculate cpu.AND a b sr).2 cpu.C = 0 ∧
     (cpu.read (calculate cpu.AND a b sr).2 cpu.S ≠ 0 ↔
      cpu.read (calculate cpu.AND a b sr).2 cpu.N ≠ 0)) ∧
    ((calculate cpu.XOR a b sr).1 = (a ^^^ b) ∧
     cpu.read (calculate cpu.XOR a b sr).2 cpu.V = 0 ∧
     cpu.read (calculate cpu.XOR a b sr).2 cpu.C = 0 ∧
     (cpu.read (calculate cpu.XOR a b sr).2 cpu.S ≠ 0 ↔
      cpu.read (calculate cpu.XOR a b sr).2 cpu.N ≠ 0)) := by
  obtain ⟨rO, cO, vO, -, nO, sO, -⟩ := calculate_bits cpu.OR a b sr
  obtain ⟨rN, cN, vN, -, nN, sN, -⟩ := calculate_bits cpu.AND a b sr
  obtain ⟨rX, cX, vX, -, nX, sX, -⟩ := calculate_bits cpu.XOR a b sr
  refine ⟨⟨?_, ?_, ?_, ?_⟩, ⟨?_, ?_, ?_, ?_⟩, ⟨?_, ?_, ?_, ?_⟩⟩
  · rw [rO, acc_OR, Nat.mod_eq_of_lt (or_lt_256 a b ha hb)]
  · rw [read_eq_zero]
    show (calculate cpu.OR a b sr).2.testBit 1 = false
    rw [vO, vbit_OR]
  · rw [read_eq_zero]
    show (calculate cpu.OR a b sr).2.testBit 0 = false
    rw [cO, acc_OR]
    exact testBit_of_lt_256 _ (or_lt_256 a b ha hb)
  · rw [read_ne_zero, read_ne_zero]
    show (calculate cpu.OR a b sr).2.testBit 4 = true ↔
      (calculate cpu.OR a b sr).2.testBit 3 = true
    rw [sO, nO, vbit_OR, bne_false]
  · rw [rN, acc_AND, Nat.mod_eq_of_lt (and_lt_256 a b ha)]
  · rw [read_eq_zero]
    show (calculate cpu.AND a b sr).2.testBit 1 = false
    rw [vN, vbit_AND]
  · rw [read_eq_zero]
    show (calculate cpu.AND a b sr).2.testBit 0 = false
    rw [cN, acc_AND]
    exact testBit_of_lt_256 _ (and_lt_256 a b ha)
  · rw [read_ne_zero, read_ne_zero]
    show (calculate cpu.AND a b sr).2.testBit 4 = true ↔
      (calculate cpu.AND a b sr).2.testBit 3 = true
    rw [sN, nN, vbit_AND, bne_false]
  · rw [rX, acc_XOR, Nat.mod_eq_of_lt (xor_lt_256 a b ha hb)]
  · rw [read_eq_zero]
    show (calculate cpu.XOR a b sr).2.testBit 1 = false
    rw [vX, vbit_XOR]
  · rw [read_eq_zero]
    show (calculate cpu.XOR a b sr).2.testBit 0 = false
    rw [cX, acc_XOR]
    exact testBit_of_lt_256 _ (xor_lt_256 a b ha hb)
  · rw [read_ne_zero, read_ne_zero]
    show (calculate cpu.XOR a b sr).2.testBit 4 = true ↔
      (calculate cpu.XOR a b sr).2.testBit 3 = true
    rw [sX, nX, vbit_XOR, bne_false]

/-- C6 witness: the statement at `a = 0x24`, `b = 0x20`, `sr = 0`. -/
theorem C6_logical_ops_witness :
    (0x24:Nat) < 256 ∧ (0x20:Nat) < 256 ∧
    (((calculate cpu.OR 0x24 0x20 0).1 = (0x24 ||| 0x20) ∧
      cpu.read (calculate cpu.OR 0x24 0x20 0).2 cpu.V = 0 ∧
      cpu.read (calculate cpu.OR 0x24 0x20 0).2 cpu.C = 0 ∧
      (cpu.read (calculate cpu.OR 0x24 0x20 0).2 cpu.S ≠ 0 ↔
       cpu.read (calculate cpu.OR 0x24 0x20 0).2 cpu.N ≠ 0)) ∧
     ((calculate cpu.AND 0x24 0x20 0).1 = (0x24 &&& 0x20) ∧
      cpu.read (calculate cpu.AND 0x24 0x20 0).2 cpu.V = 0 ∧
      cpu.read (calculate cpu.AND 0x24 0x20 0).2 cpu.C = 0 ∧
      (cpu.read (calculate cpu.AND 0x24 0x20 0).2 cpu.S ≠ 0 ↔
       cpu.read (calculate cpu.AND 0x24 0x20 0).2 cpu.N ≠ 0)) ∧
     ((calculate cpu.XOR 0x24 0x20 0).1 = (0x24 ^^^ 0x20) ∧
      cpu.read (calculate cpu.XOR 0x24 0x20 0).2 cpu.V = 0 ∧
      cpu.read (calculate cpu.XOR 0x24 0x20 0).2 cpu.C = 0 ∧
      (cpu.read (calculate cpu.XOR 0x24 0x20 0).2 cpu.S ≠ 0 ↔
       cpu.read (calculate cpu.XOR 0x24 0x20 0).2 cpu.N ≠ 0))) :=
  ⟨by decide, by decide, C6_logical_ops 0x24 0x20 0 (by decide) (by decide)⟩

/-- C7: after any `calculate` call the Signed flag is the exclusive-or of
the Negative and Overflow flags, for every operation code and all
operands. -/
theorem C7_signed_flag (op a b sr : Nat) :
    (cpu.read (calculate op a b sr).2 cpu.S != 0) =
      ((cpu.read (calculate op a b sr).2 cpu.N != 0) !=
       (cpu.read (calculate op a b sr).2 cpu.V != 0)) := by
  obtain ⟨-, -, b1, -, b3, b4, -⟩ := calculate_bits op a b sr
  rw [read_bne, read_bne, read_bne]
  show (calculate op a b sr).2.testBit 4 =
    ((calculate op a b sr).2.testBit 3 != (calculate op a b sr).2.testBit 1)
  rw [b1, b3, b4]

/-- C8: any operation code outside `{OR, AND, XOR, ADD, SUB}` falls through
the switch: the result is 0, the Zero flag is set, and the Signed,
Negative, Overflow and Carry flags are clear. -/
theorem C8_unknown_op (op a b sr : Nat) (h1 : op ≠ cpu.OR) (h2 : op ≠ cpu.AND)
    (h3 : op ≠ cpu.XOR) (h4 : op ≠ cpu.ADD) (h5 : op ≠ cpu.SUB) :
    (calculate op a b sr).1 = 0 ∧
    cpu.read (calculate op a b sr).2 cpu.Z ≠ 0 ∧
    cpu.read (calculate op a b sr).2 cpu.S = 0 ∧
    cpu.read (calculate op a b sr).2 cpu.N = 0 ∧
    cpu.read (calculate op a b sr).2 cpu.V = 0 ∧
    cpu.read (calculate op a b sr).2 cpu.C = 0 := by
  obtain ⟨r1, b0, b1, b2, b3, b4, -⟩ := calculate_bits op a b sr
  have ha0 := acc_default op a b h1 h2 h3 h4 h5
  have hv0 := vbit_default op a b h1 h2 h3 h4 h5
  refine ⟨?_, ?_, ?_, ?_, ?_, ?_⟩
  · rw [r1, ha0]
  · rw [read_ne_zero]
    show (calculate op a b sr).2.testBit 2 = true
    rw [b2, ha0]
    decide
  · rw [read_eq_zero]
    show (calculate op a b sr).2.testBit 4 = false
    rw [b4, ha0, hv0, Nat.zero_testBit, bne_false]
  · rw [read_eq_zero]
    show (calculate op a b sr).2.testBit 3 = false
    rw [b3, ha0]
    exact Nat.zero_testBit 7
  · rw [read_eq_zero]
    show (calculate op a b sr).2.testBit 1 = false
    rw [b1, hv0]
  · rw [read_eq_zero]
    show (calculate op a b sr).2.testBit 0 = false
    rw [b0, ha0]
    exact Nat.zero_testBit 8

/-- C8 witness: the statement at `op = 0` (the NOP sentinel), `a = 3`,
`b = 5`, `sr = 255`. -/
theorem C8_unknown_op_witness :
    (0:Nat) ≠ cpu.OR ∧ (0:Nat) ≠ cpu.AND ∧ (0:Nat) ≠ cpu.XOR ∧ (0:Nat) ≠ cpu.ADD ∧
    (0:Nat) ≠ cpu.SUB ∧
    ((calculate 0 3 5 255).1 = 0 ∧
     cpu.read (calculate 0 3 5 255).2 cpu.Z ≠ 0 ∧
     cpu.read (calculate 0 3 5 255).2 cpu.S = 0 ∧
     cpu.read (calculate 0 3 5 255).2 cpu.N = 0 ∧
     cpu.read (calculate 0 3 5 255).2 cpu.V = 0 ∧
     cpu.read (calculate 0 3 5 255).2 cpu.C = 0) :=
  ⟨by decide, by decide, by decide, by decide, by decide,
   C8_unknown_op 0 3 5 255 (by decide) (by decide) (by decide) (by decide) (by decide)⟩

/-- C9: the byte result and the five flag bits (bits 0-4) produced by
`calculate` do not depend on the initial status-register value; in
particular two calls with identical inputs yield identical outputs. -/
theorem C9_sr_independent (op a b sr₁ sr₂ i : Nat) (hi : i < 5) :
    (calculate op a b sr₁).1 = (calculate op a b sr₂).1 ∧
    cpu.read (calculate op a b sr₁).2 i = cpu.read (calculate op a b sr₂).2 i := by
  obtain ⟨r1, c0, c1, c2, c3, c4, -⟩ := calculate_bits op a b sr₁
  obtain ⟨r2, d0, d1, d2, d3, d4, -⟩ := calculate_bits op a b sr₂
  refine ⟨by rw [r1, r2], ?_⟩
  rw [read_spec, read_spec]
  interval_cases i
  · rw [c0, d0]
  · rw [c1, d1]
  · rw [c2, d2]
  · rw [c3, d3]
  · rw [c4, d4]

/-- C9 witness: the statement at `op = ADD`, `a = 100`, `b = 50`,
`sr₁ = 0`, `sr₂ = 255`, flag bit `i = 1`. -/
theorem C9_sr_independent_witness :
    (1:Nat) < 5 ∧
    ((calculate cpu.ADD 100 50 0).1 = (calculate cpu.ADD 100 50 255).1 ∧
     cpu.read (calculate cpu.ADD 100 50 0).2 1 = cpu.read (calculate cpu.ADD 100 50 255).2 1) :=
  ⟨by decide, C9_sr_independent cpu.ADD 100 50 0 255 1 (by decide)⟩

/-- C10: `calculate` modifies only the five flag bits: for every operation
code (recognized or not) and any 8-bit status register, bits 5 and above
keep their prior values. -/
theorem C10_high_bits_preserved (op a b sr j : Nat) (hsr : sr < 256) (hj : 5 ≤ j) :
    cpu.read (calculate op a b sr).2 j = cpu.read sr j := by
  obtain ⟨-, -, -, -, -, -, hh⟩ := calculate_bits op a b sr
  rw [read_spec, read_spec, hh j hj]
  have hmask : (sr &&& 224).testBit j = sr.testBit j := by
    rw [Nat.testBit_and]
    rcases Nat.lt_or_ge j 8 with h8 | h8
    · interval_cases j <;>
        simp [show Nat.testBit 224 5 = true from rfl,
          show Nat.testBit 224 6 = true from rfl,
          show Nat.testBit 224 7 = true from rfl]
    · have hpow : (256:Nat) ≤ 2 ^ j := by
        calc (256:Nat) = 2 ^ 8 := by norm_num
        _ ≤ 2 ^ j := Nat.pow_le_pow_right (by norm_num) h8
      have hs : sr.testBit j = false :=
        Nat.testBit_lt_two_pow (Nat.lt_of_lt_of_le hsr hpow)
      have h224 : Nat.testBit 224 j = false :=
        Nat.testBit_lt_two_pow (Nat.lt_of_lt_of_le (by norm_num) hpow)
      rw [hs, h224, Bool.and_false]
  rw [hmask]

/-- C10 witness: the statement at `op = ADD`, `a = 1`, `b = 2`, `sr = 199`,
bit `j = 6`. -/
theorem C10_high_bits_preserved_witness :
    (199:Nat) < 256 ∧ (5:Nat) ≤ 6 ∧
    cpu.read (calculate cpu.ADD 1 2 199).2 6 = cpu.read 199 6 :=
  ⟨by decide, by decide, C10_high_bits_preserved cpu.ADD 1 2 199 6 (by decide) (by decide)⟩

end claims
